import Mathlib

/-!
Verification development for the KSERC truing-up decision-support engine.

The development shallowly embeds the core of the repository:

* `sbu_base.py` — `LineItemBase` (amount resolution, overall flag, review
  status) and `SBU_Base` (total-ARR aggregation, aggregation readiness,
  drill-down) — as Lean functions over an explicit `Record` type;
* the heuristic functions cited by the claims
  (`heuristic_ROE_01`, `heuristic_DEP_GEN_01`, `heuristic_OTHER_EXP_01`,
  `heuristic_EXC_01`) as pure functions producing `Record`s.

Modelling conventions:
* Python floats are modelled as `ℚ` (exact rational arithmetic); `round(x, 2)`
  is modelled as decimal rounding half-to-even (`pyRound2`), which agrees with
  CPython on values exactly representable in binary (e.g. 0.125, 100.0).
* A Python value that may be `None` is an `Option`; `x if x is not None else y`
  is an explicit match, while the truthiness idiom `a or b` on numbers (which
  also treats `0.0` as absent) is `truthy_or_amount`.
* The wall clock (`datetime.now()`) is an explicit `World` argument threaded
  into the two heuristics whose source reads it; heuristics whose source never
  touches the clock take no `World`.
* The flag strings `'GREEN'/'YELLOW'/'RED'` plus the sentinel
  `'STAFF_OVERRIDE'` (written by `heuristic_EXC_01`/`heuristic_OTHER_EXP_01`)
  form the enum `FlagColor`; review statuses `'Pending'/'Accepted'/'Overridden'`
  form `ReviewStatus`.  Every heuristic of the repository writes `flag` from
  the first three values and the review UI (`app.py`) writes
  `staff_override_flag` from them, so the enum is exhaustive for the data the
  engine stores.  Per-heuristic auxiliary breakdown sub-dicts
  (`equity_details`, `depreciation_breakdown`), pure functions of the same
  inputs and read by no aggregation code, are not carried in `Record`.
-/

/-- Traffic-light flag values, plus the `'STAFF_OVERRIDE'` sentinel that
`heuristic_EXC_01`/`heuristic_OTHER_EXP_01` write into `staff_override_flag`
when a staff amount far from the computed allowable is supplied. -/
inductive FlagColor where
  | GREEN
  | YELLOW
  | RED
  | STAFF_OVERRIDE
deriving DecidableEq, Repr

/-- The `staff_review_status` strings `'Pending' | 'Accepted' | 'Overridden'`. -/
inductive ReviewStatus where
  | Pending
  | Accepted
  | Overridden
deriving DecidableEq, Repr

/-- The Assessment Record: the dictionary every heuristic returns
(`heuristic_id`, …, `output_type` keys common to all heuristics). -/
structure Record where
  heuristic_id : String
  heuristic_name : String
  line_item : String
  claimed_value : Option ℚ
  allowable_value : Option ℚ
  variance_absolute : Option ℚ
  variance_percentage : Option ℚ
  flag : FlagColor
  recommended_amount : Option ℚ
  recommendation_text : String
  regulatory_basis : String
  calculation_steps : List String
  staff_override_flag : Option FlagColor
  staff_approved_amount : Option ℚ
  staff_justification : String
  staff_review_status : ReviewStatus
  reviewed_by : Option String
  reviewed_at : Option String
  depends_on : List String
  is_primary : Bool
  output_type : String
deriving DecidableEq, Repr

/-- `LineItemBase`: display name, pattern string (`"single"`, `"multi"`, or
`"none"`, the last stored like `"multi"`), and the stored heuristic results
(`heuristic_result` for the single pattern, `heuristic_results` otherwise). -/
structure LineItem where
  line_item_name : String
  pattern : String
  heuristic_result : Option Record
  heuristic_results : List Record
deriving DecidableEq, Repr

/-- `LineItemBase._get_all_results`: `[self.heuristic_result] if
self.heuristic_result else []` for the single pattern (a stored result dict is
nonempty, so dict truthiness is presence), else `self.heuristic_results`. -/
def LineItem.get_all_results (li : LineItem) : List Record :=
  if li.pattern == "single" then
    match li.heuristic_result with
    | some r => [r]
    | none => []
  else li.heuristic_results

/-- `LineItemBase.get_primary_heuristic`: first result with a truthy
`is_primary`, else the first result, else `None`. -/
def LineItem.get_primary_heuristic (li : LineItem) : Option Record :=
  match li.get_all_results.find? (fun r => r.is_primary) with
  | some r => some r
  | none => li.get_all_results.head?

/-- The body of the multi-pattern loop of `LineItemBase.get_approved_amount`:
accumulate `staff_approved_amount` when non-null else `recommended_amount`
when non-null, over records with truthy `is_primary` and
`output_type == 'approved_amount'`; the Bool is the loop's `has_any`. -/
def multi_amount_step (acc : ℚ × Bool) (r : Record) : ℚ × Bool :=
  if r.is_primary && r.output_type == "approved_amount" then
    match r.staff_approved_amount with
    | some v => (acc.1 + v, true)
    | none =>
      match r.recommended_amount with
      | some v => (acc.1 + v, true)
      | none => acc
  else acc

/-- Per-record amount resolution shared by the single-pattern branch and the
multi-pattern fallback: `staff_approved_amount` if non-null else
`recommended_amount`. -/
def resolve_record_amount (r : Record) : Option ℚ :=
  match r.staff_approved_amount with
  | some v => some v
  | none => r.recommended_amount

/-- `LineItemBase.get_approved_amount` (sbu_base.py lines 100-147). -/
def LineItem.get_approved_amount (li : LineItem) : Option ℚ :=
  let results := li.get_all_results
  if results.isEmpty then none
  else if li.pattern == "single" then
    match li.get_primary_heuristic with
    | none => none
    | some primary => resolve_record_amount primary
  else
    let st := results.foldl multi_amount_step (0, false)
    if st.2 then some st.1
    else
      match li.get_primary_heuristic with
      | none => none
      | some primary => resolve_record_amount primary

/-- A record's effective flag: `result.get('staff_override_flag') or
result.get('flag')` — with both fields drawn from the `FlagColor` enum the `or`
picks the override when present. -/
def effective_flag (r : Record) : FlagColor :=
  r.staff_override_flag.getD r.flag

/-- `LineItemBase.get_overall_flag` (sbu_base.py lines 149-173), returning the
literal strings of the source.  Every record contributes a truthy flag (the
`FlagColor` enum has no falsy value), so the source's `if flag:` filter keeps all
of them and the second `'PENDING'` branch is unreachable. -/
def LineItem.get_overall_flag (li : LineItem) : String :=
  let results := li.get_all_results
  if results.isEmpty then "PENDING"
  else
    let flags := results.map effective_flag
    if flags.isEmpty then "PENDING"
    else if flags.contains FlagColor.RED then "RED"
    else if flags.contains FlagColor.YELLOW then "YELLOW"
    else "GREEN"

/-- The dictionary `LineItemBase.check_review_status` returns. -/
structure ReviewStatusCounts where
  total : ℕ
  pending : ℕ
  accepted : ℕ
  overridden : ℕ
  complete : Bool
deriving DecidableEq, Repr

/-- `LineItemBase.check_review_status` (sbu_base.py lines 175-205):
per-status counts and `complete = (pending == 0 and total > 0)`. -/
def LineItem.check_review_status (li : LineItem) : ReviewStatusCounts :=
  let results := li.get_all_results
  if results.isEmpty then ⟨0, 0, 0, 0, false⟩
  else
    let pending := results.countP (fun r => r.staff_review_status == ReviewStatus.Pending)
    let accepted := results.countP (fun r => r.staff_review_status == ReviewStatus.Accepted)
    let overridden := results.countP (fun r => r.staff_review_status == ReviewStatus.Overridden)
    let total := results.length
    ⟨total, pending, accepted, overridden, (pending == 0) && (decide (0 < total))⟩

/-- One entry of the SBU config's `line_items` table; `is_expense` is `none`
when the config omits the key (`item_config.get('is_expense', True)`). -/
structure SBUItemConfig where
  key : String
  is_expense : Option Bool
deriving DecidableEq, Repr

/-- `SBU_Base`: the per-unit config rows and the ordered `line_items` dict
(Python dicts iterate in insertion order, so an association list). -/
structure SBU where
  sbu_code : String
  sbu_name : String
  config_line_items : List SBUItemConfig
  line_items : List (String × LineItem)

/-- The `expense_lookup` dict of `SBU_Base.calculate_total_arr` followed by
`expense_lookup.get(key, True)`: the latest config row with the key wins (dict
building overwrites), default `True` both for a config row without the flag
and for a line-item key with no config row. -/
def SBU.expense_lookup (sbu : SBU) (key : String) : Bool :=
  match sbu.config_line_items.reverse.find? (fun c => c.key == key) with
  | some c => c.is_expense.getD true
  | none => true

/-- Python's `round` to an integer: round-half-to-even. -/
def roundHalfEven (q : ℚ) : ℤ :=
  let n : ℤ := ⌊q⌋
  let f : ℚ := q - n
  if f < 1 / 2 then n
  else if 1 / 2 < f then n + 1
  else if n % 2 = 0 then n
  else n + 1

/-- Python's `round(x, 2)` on the idealized (exact-rational) value. -/
def pyRound2 (q : ℚ) : ℚ :=
  (roundHalfEven (q * 100) : ℚ) / 100

/-- `SBU_Base.calculate_total_arr` (sbu_base.py lines 266-289): signed
accumulation of every line item's `get_approved_amount()` (skipping `None`),
adding expense items and subtracting non-expense items, then `round(total, 2)`. -/
def SBU.calculate_total_arr (sbu : SBU) : ℚ :=
  let total := sbu.line_items.foldl
    (fun total kli =>
      match kli.2.get_approved_amount with
      | none => total
      | some approved =>
        if sbu.expense_lookup kli.1 then total + approved else total - approved)
    0
  pyRound2 total

/-- The dictionary `SBU_Base.check_aggregation_ready` returns. -/
structure AggregationReadiness where
  ready_for_aggregation : Bool
  line_item_statuses : List (String × ReviewStatusCounts)
deriving DecidableEq, Repr

/-- `SBU_Base.check_aggregation_ready` (sbu_base.py lines 291-310):
`all_complete` starts true and is cleared by any line item whose
`check_review_status()['complete']` is false. -/
def SBU.check_aggregation_ready (sbu : SBU) : AggregationReadiness :=
  { ready_for_aggregation :=
      sbu.line_items.foldl (fun acc kli => acc && kli.2.check_review_status.complete) true
    line_item_statuses :=
      sbu.line_items.map (fun kli => (kli.1, kli.2.check_review_status)) }

/-- Python's `a or b` over two optional amounts: `a` counts only when it is
present AND nonzero (`0.0` is falsy), otherwise the whole expression is `b`. -/
def truthy_or_amount : Option ℚ → Option ℚ → Option ℚ
  | some v, b => if v = 0 then b else some v
  | none, b => b

/-- One per-heuristic entry of `SBU_Base.get_drill_down_data`. -/
structure DrillDownHeuristicDetail where
  id : String
  name : String
  flag : FlagColor
  is_primary : Bool
  review_status : ReviewStatus
  reviewed_by : Option String
  reviewed_at : Option String
  approved_amount : Option ℚ
deriving DecidableEq, Repr

/-- The `heur_detail` dict built inside `SBU_Base.get_drill_down_data`
(sbu_base.py lines 350-362); its `approved_amount` uses the truthiness `or`
(`staff_approved_amount or recommended_amount`), not a null check. -/
def drill_down_heuristic_detail (r : Record) : DrillDownHeuristicDetail :=
  { id := r.heuristic_id
    name := r.heuristic_name
    flag := effective_flag r
    is_primary := r.is_primary
    review_status := r.staff_review_status
    reviewed_by := r.reviewed_by
    reviewed_at := r.reviewed_at
    approved_amount := truthy_or_amount r.staff_approved_amount r.recommended_amount }

/-- One per-line-item entry of `SBU_Base.get_drill_down_data`. -/
structure DrillDownLineDetail where
  key : String
  name : String
  approved_amount : Option ℚ
  overall_flag : String
  review_status : ReviewStatusCounts
  heuristics : List DrillDownHeuristicDetail
deriving DecidableEq, Repr

/-- `SBU_Base.get_drill_down_data` (sbu_base.py lines 330-366): the
`line_items_detail` list (the surrounding dict also repeats `sbu_name` and the
cached `total_arr`, carried nowhere else). -/
def SBU.get_drill_down_data (sbu : SBU) : List DrillDownLineDetail :=
  sbu.line_items.map (fun kli =>
    { key := kli.1
      name := kli.2.line_item_name
      approved_amount := kli.2.get_approved_amount
      overall_flag := kli.2.get_overall_flag
      review_status := kli.2.check_review_status
      heuristics := kli.2.get_all_results.map drill_down_heuristic_detail })

/-- The wall clock: `datetime.now().strftime(...)` rendered as an opaque
timestamp string.  Passed explicitly to the heuristics whose source calls it. -/
structure World where
  now : String
deriving DecidableEq, Repr

/-- Python's `f"{x:.2f}"` on the idealized rational value (two decimals,
half-to-even; a negative zero is rendered without its sign). -/
def fmt2 (q : ℚ) : String :=
  let cents : ℤ := roundHalfEven (q * 100)
  let sign := if cents < 0 then "-" else ""
  let m := cents.natAbs
  let r := m % 100
  sign ++ toString (m / 100) ++ "." ++ (if r < 10 then "0" else "") ++ toString r

/-- Python's `f"{x:+.2f}"`: like `fmt2` with an explicit plus sign. -/
def fmt2signed (q : ℚ) : String :=
  if roundHalfEven (q * 100) < 0 then fmt2 q else "+" ++ fmt2 q

/-- The `equity_infusion_details` dict of `heuristic_ROE_01`
(keys `date` and `govt_approval_ref`, both looked up with a default). -/
structure EquityInfusionDetails where
  date : Option String
  govt_approval_ref : Option String
deriving DecidableEq, Repr

/-- `heuristic_ROE_01` (roe_heuristics.py lines 8-123).  The source reads no
clock and leaves every staff-review field at its initial value. -/
def heuristic_ROE_01 (equity_capital roe_rate claimed_roe : ℚ)
    (equity_infusion_during_year : ℚ)
    (equity_infusion_details : Option EquityInfusionDetails) : Record :=
  let adjusted_equity := equity_capital + equity_infusion_during_year
  let allowable_roe := adjusted_equity * roe_rate
  let variance_abs := claimed_roe - allowable_roe
  let variance_pct := if 0 < allowable_roe then variance_abs / allowable_roe * 100 else 0
  let flag : FlagColor := if |variance_abs| < 0.01 then .GREEN else .RED
  let recommendation :=
    if |variance_abs| < 0.01 then "Approve as calculated"
    else "Claimed ROE does not match calculation - allow only calculated amount"
  let calc_steps :=
    ["ROE Calculation (Regulation 47, Tariff Regulations 2021):",
     "",
     "Opening Equity Capital: " ++ fmt2 equity_capital ++ " Cr"]
    ++ (if 0 < equity_infusion_during_year then
          ["Equity Infusion During Year: " ++ fmt2 equity_infusion_during_year ++ " Cr",
           "Adjusted Equity Capital: " ++ fmt2 adjusted_equity ++ " Cr"]
          ++ (match equity_infusion_details with
              | some d =>
                ["  Infusion Date: " ++ d.date.getD "Not provided",
                 "  Govt Approval: " ++ d.govt_approval_ref.getD "Not provided"]
              | none => [])
        else ["No equity infusion during the year"])
    ++ ["",
        "ROE Rate (Fixed): " ++ fmt2 (roe_rate * 100) ++ "%",
        "Calculation: " ++ fmt2 adjusted_equity ++ " Cr × " ++ fmt2 (roe_rate * 100) ++ "%",
        "Allowable ROE: " ++ fmt2 allowable_roe ++ " Cr",
        "",
        "KSEB Claimed: " ++ fmt2 claimed_roe ++ " Cr",
        "Variance: " ++ fmt2signed variance_abs ++ " Cr (" ++ fmt2signed variance_pct ++ "%)",
        "",
        "Note: ROE is a normative calculation with zero tolerance.",
        "Any variance requires justification or correction."]
  { heuristic_id := "ROE-01"
    heuristic_name := "Return on Equity Calculation"
    line_item := "Return on Equity"
    claimed_value := some claimed_roe
    allowable_value := some allowable_roe
    variance_absolute := some variance_abs
    variance_percentage := some variance_pct
    flag := flag
    recommended_amount := some allowable_roe
    recommendation_text := recommendation
    regulatory_basis := "Regulation 47, Tariff Regulations 2021"
    calculation_steps := calc_steps
    staff_override_flag := none
    staff_approved_amount := none
    staff_justification := ""
    staff_review_status := .Pending
    reviewed_by := none
    reviewed_at := none
    depends_on := []
    is_primary := true
    output_type := "approved_amount" }

/-- Bucket 1 of `heuristic_DEP_GEN_01`: depreciable assets aged 13-30 years
(GFA less land less grants). -/
def dep_depreciable_13_to_30 (gfa land grants : ℚ) : ℚ :=
  gfa - land - grants

/-- Bucket-1 depreciation: 1.42% of the depreciable 13-30-year assets. -/
def dep_depreciation_13_to_30 (gfa land grants : ℚ) : ℚ :=
  dep_depreciable_13_to_30 gfa land grants * 0.0142

/-- Bucket 2 opening depreciable assets (<13 years): GFA less land less grants. -/
def dep_opening_below_13 (gfa land grants : ℚ) : ℚ :=
  gfa - land - grants

/-- Bucket 2 closing depreciable assets: opening + additions − withdrawals. -/
def dep_closing_below_13 (opening additions withdrawals : ℚ) : ℚ :=
  opening + additions - withdrawals

/-- Bucket 2 average depreciable assets: (opening + closing) / 2. -/
def dep_average_below_13 (opening closing : ℚ) : ℚ :=
  (opening + closing) / 2

/-- Bucket-2 depreciation: 5.14% of the average depreciable assets. -/
def dep_depreciation_below_13 (average : ℚ) : ℚ :=
  average * 0.0514

/-- `heuristic_DEP_GEN_01` (depreciation_heuristics.py lines 8-184).
`gfa_opening_total` is accepted but read nowhere in the body.  The source
reads no clock and leaves every staff-review field at its initial value. -/
def heuristic_DEP_GEN_01 (gfa_opening_total gfa_13_to_30_years land_13_to_30_years
    grants_13_to_30_years gfa_below_13_years land_below_13_years grants_below_13_years
    asset_additions claimed_depreciation asset_withdrawals : ℚ) : Record :=
  let depreciable_13_to_30 :=
    dep_depreciable_13_to_30 gfa_13_to_30_years land_13_to_30_years grants_13_to_30_years
  let depreciation_13_to_30 :=
    dep_depreciation_13_to_30 gfa_13_to_30_years land_13_to_30_years grants_13_to_30_years
  let opening_below_13 :=
    dep_opening_below_13 gfa_below_13_years land_below_13_years grants_below_13_years
  let closing_below_13 :=
    dep_closing_below_13 opening_below_13 asset_additions asset_withdrawals
  let average_below_13 := dep_average_below_13 opening_below_13 closing_below_13
  let depreciation_below_13 := dep_depreciation_below_13 average_below_13
  let total_allowable := depreciation_13_to_30 + depreciation_below_13
  let variance_abs := claimed_depreciation - total_allowable
  let variance_pct := if 0 < total_allowable then variance_abs / total_allowable * 100 else 0
  let flag : FlagColor :=
    if |variance_pct| ≤ 2 then .GREEN
    else if |variance_pct| ≤ 5 then .YELLOW
    else .RED
  let recommendation :=
    if |variance_pct| ≤ 2 then "Approve as calculated - within tolerance"
    else if |variance_pct| ≤ 5 then "Minor variance - verify calculation methodology"
    else "Significant variance - requires detailed scrutiny"
  let calc_steps :=
    ["DEPRECIATION CALCULATION (Regulation 48, Tariff Regulations 2021)",
     "",
     "═══ BUCKET 1: Assets 13-30 Years ═══",
     "Total GFA (13-30 years): ₹" ++ fmt2 gfa_13_to_30_years ++ " Cr",
     "Less: Land value: ₹" ++ fmt2 land_13_to_30_years ++ " Cr",
     "Less: Grants & contributions: ₹" ++ fmt2 grants_13_to_30_years ++ " Cr",
     "Depreciable Assets (13-30 years): ₹" ++ fmt2 depreciable_13_to_30 ++ " Cr",
     "Depreciation Rate: 1.42%",
     "Depreciation (13-30 years): ₹" ++ fmt2 depreciation_13_to_30 ++ " Cr",
     "",
     "═══ BUCKET 2: Assets <13 Years ═══",
     "Opening GFA (<13 years): ₹" ++ fmt2 gfa_below_13_years ++ " Cr",
     "Less: Land value: ₹" ++ fmt2 land_below_13_years ++ " Cr",
     "Less: Grants & contributions: ₹" ++ fmt2 grants_below_13_years ++ " Cr",
     "Opening Depreciable Assets: ₹" ++ fmt2 opening_below_13 ++ " Cr",
     "",
     "Add: Asset additions (FY): ₹" ++ fmt2 asset_additions ++ " Cr",
     "Less: Asset withdrawals: ₹" ++ fmt2 asset_withdrawals ++ " Cr",
     "Closing Depreciable Assets: ₹" ++ fmt2 closing_below_13 ++ " Cr",
     "",
     "Average = (Opening + Closing) / 2",
     "Average Depreciable Assets: ₹" ++ fmt2 average_below_13 ++ " Cr",
     "Depreciation Rate: 5.14%",
     "Depreciation (<13 years): ₹" ++ fmt2 depreciation_below_13 ++ " Cr",
     "",
     "═══ TOTAL DEPRECIATION ═══",
     "Bucket 1 (13-30 years): ₹" ++ fmt2 depreciation_13_to_30 ++ " Cr",
     "Bucket 2 (<13 years): ₹" ++ fmt2 depreciation_below_13 ++ " Cr",
     "Total Allowable Depreciation: ₹" ++ fmt2 total_allowable ++ " Cr",
     "",
     "KSEB Claimed: ₹" ++ fmt2 claimed_depreciation ++ " Cr",
     "Variance: " ++ fmt2signed variance_abs ++ " Cr (" ++ fmt2signed variance_pct ++ "%)",
     "",
     "Threshold: ±2% = GREEN, ±5% = YELLOW, >5% = RED"]
  { heuristic_id := "DEP-GEN-01"
    heuristic_name := "Depreciation Calculation"
    line_item := "Depreciation"
    claimed_value := some claimed_depreciation
    allowable_value := some total_allowable
    variance_absolute := some variance_abs
    variance_percentage := some variance_pct
    flag := flag
    recommended_amount := some total_allowable
    recommendation_text := recommendation
    regulatory_basis := "Regulation 48, Tariff Regulations 2021"
    calculation_steps := calc_steps
    staff_override_flag := none
    staff_approved_amount := none
    staff_justification := ""
    staff_review_status := .Pending
    reviewed_by := none
    reviewed_at := none
    depends_on := []
    is_primary := true
    output_type := "approved_amount" }

/-- Python's `" ".join(notes)`: the elements separated by single spaces. -/
def join_with_space : List String → String
  | [] => ""
  | [a] => a
  | a :: rest => a ++ " " ++ join_with_space rest

/-- The staff-review block duplicated verbatim in `heuristic_OTHER_EXP_01`
(other_items_heuristics.py lines 127-141) and `heuristic_EXC_01` (lines
287-301): `(staff_override_flag, staff_review_status, reviewed_by,
reviewed_at)` — when a `staff_approved_amount` argument is supplied, the
status becomes `Accepted` within a 0.1 tolerance of the computed allowable
and `Overridden` (with the `STAFF_OVERRIDE` sentinel) beyond it, and
`reviewed_at` is stamped from the wall clock. -/
def other_items_staff_review (staff_name : String) (staff_approved_amount : Option ℚ)
    (total_allowable : ℚ) (w : World) :
    Option FlagColor × ReviewStatus × Option String × Option String :=
  match staff_approved_amount with
  | none => (none, .Pending, none, none)
  | some v =>
    if |v - total_allowable| < 0.1 then
      (none, .Accepted, if staff_name == "" then none else some staff_name, some w.now)
    else
      (some .STAFF_OVERRIDE, .Overridden,
        if staff_name == "" then none else some staff_name, some w.now)

/-- `heuristic_OTHER_EXP_01` (other_items_heuristics.py lines 11-166). -/
def heuristic_OTHER_EXP_01 (claimed_discount_to_consumers claimed_flood_losses
    claimed_misc_writeoffs : ℚ) (flood_supporting_docs writeoff_appeal_orders : Bool)
    (staff_name : String) (staff_approved_amount : Option ℚ)
    (staff_justification : String) (w : World) : Record :=
  let allowable_discount := claimed_discount_to_consumers
  let flags1 : List FlagColor :=
    if 0 < claimed_discount_to_consumers then [.GREEN] else []
  let notes1 : List String :=
    if 0 < claimed_discount_to_consumers then
      ["Discount to consumers (₹" ++ fmt2 claimed_discount_to_consumers
        ++ " Cr) approved - benefits both licensee and consumers."]
    else []
  let allowable_flood := if flood_supporting_docs then claimed_flood_losses else 0
  let flags2 : List FlagColor := if flood_supporting_docs then [.GREEN] else [.YELLOW]
  let notes2 : List String :=
    if flood_supporting_docs then
      ["Flood/cyclone losses (₹" ++ fmt2 claimed_flood_losses
        ++ " Cr) approved - compensation for injuries, death, damages verified."]
    else
      ["Flood/cyclone losses (₹" ++ fmt2 claimed_flood_losses
        ++ " Cr) require supporting documentation."]
  let allowable_writeoffs := if writeoff_appeal_orders then claimed_misc_writeoffs else 0
  let flags3 : List FlagColor := if writeoff_appeal_orders then [.GREEN] else [.YELLOW]
  let notes3 : List String :=
    if writeoff_appeal_orders then
      ["Miscellaneous write-offs (₹" ++ fmt2 claimed_misc_writeoffs
        ++ " Cr) approved - prior period adjustments per appeal authority orders."]
    else
      ["Miscellaneous write-offs (₹" ++ fmt2 claimed_misc_writeoffs
        ++ " Cr) require appeal authority orders or error documentation."]
  let flags := flags1 ++ flags2 ++ flags3
  let notes := notes1 ++ notes2 ++ notes3
  let total_allowable := allowable_discount + allowable_flood + allowable_writeoffs
  let total_claimed :=
    claimed_discount_to_consumers + claimed_flood_losses + claimed_misc_writeoffs
  let overall_flag : FlagColor :=
    if flags.contains .RED then .RED
    else if flags.contains .YELLOW then .YELLOW
    else .GREEN
  let variance_absolute := total_claimed - total_allowable
  let variance_percentage :=
    if total_allowable ≠ 0 then variance_absolute / total_allowable * 100 else 0
  let recommendation_text :=
    if overall_flag = .GREEN then
      "Approve total other expenses of ₹" ++ fmt2 total_allowable ++ " Cr. "
        ++ join_with_space notes
    else
      "Approve ₹" ++ fmt2 total_allowable ++ " Cr (out of ₹" ++ fmt2 total_claimed
        ++ " Cr claimed). " ++ join_with_space notes
  let calculation_steps :=
    ["=== Component 1: Discount to Consumers ===",
     "Claimed: ₹" ++ fmt2 claimed_discount_to_consumers ++ " Cr",
     "Allowable: ₹" ++ fmt2 allowable_discount ++ " Cr",
     "",
     "=== Component 2: Flood/Cyclone Losses ===",
     "Claimed: ₹" ++ fmt2 claimed_flood_losses ++ " Cr",
     "Supporting Docs: " ++ (if flood_supporting_docs then "YES" else "NO"),
     "Allowable: ₹" ++ fmt2 allowable_flood ++ " Cr",
     "",
     "=== Component 3: Miscellaneous Write-offs ===",
     "Claimed: ₹" ++ fmt2 claimed_misc_writeoffs ++ " Cr",
     "Appeal Authority Orders: " ++ (if writeoff_appeal_orders then "YES" else "NO"),
     "Allowable: ₹" ++ fmt2 allowable_writeoffs ++ " Cr",
     "",
     "=== Total Other Expenses ===",
     "Total Claimed: ₹" ++ fmt2 total_claimed ++ " Cr",
     "Total Allowable: ₹" ++ fmt2 total_allowable ++ " Cr",
     "Variance: ₹" ++ fmt2 variance_absolute ++ " Cr (" ++ fmt2signed variance_percentage
       ++ "%)"]
  let sr := other_items_staff_review staff_name staff_approved_amount total_allowable w
  let final_approved_amount := staff_approved_amount.getD total_allowable
  { heuristic_id := "OTHER-EXP-01"
    heuristic_name := "Other Expenses"
    line_item := "Other Expenses"
    claimed_value := some total_claimed
    allowable_value := some total_allowable
    variance_absolute := some variance_absolute
    variance_percentage := some variance_percentage
    flag := overall_flag
    recommended_amount := some total_allowable
    recommendation_text := recommendation_text
    regulatory_basis := "Note 38 of audited accounts; Prudence check on operational expenses; Prior period adjustments per appeal authority directions"
    calculation_steps := calculation_steps
    staff_override_flag := sr.1
    staff_approved_amount := some final_approved_amount
    staff_justification := staff_justification
    staff_review_status := sr.2.1
    reviewed_by := sr.2.2.1
    reviewed_at := sr.2.2.2
    depends_on := []
    is_primary := true
    output_type := "mixed" }

/-- Component 1 of `heuristic_EXC_01`: `(allowable_calamity, flag_calamity,
calamity note)` from the four documentation/account-coding branches. -/
def exc_calamity_assessment (claimed_calamity_rm : ℚ)
    (separate_account_code calamity_supporting_docs : Bool) : ℚ × FlagColor × String :=
  if separate_account_code && calamity_supporting_docs then
    (claimed_calamity_rm, .GREEN,
      "Natural calamity R&M (₹" ++ fmt2 claimed_calamity_rm
        ++ " Cr) approved with separate account coding verification.")
  else if separate_account_code && !calamity_supporting_docs then
    (claimed_calamity_rm, .YELLOW,
      "Natural calamity R&M (₹" ++ fmt2 claimed_calamity_rm
        ++ " Cr) approved but requires detailed supporting documents.")
  else if !separate_account_code && calamity_supporting_docs then
    (0, .RED,
      "Natural calamity R&M (₹" ++ fmt2 claimed_calamity_rm
        ++ " Cr) requires separate account codes to prevent mixing with normal O&M.")
  else
    (0, .RED,
      "Natural calamity R&M (₹" ++ fmt2 claimed_calamity_rm
        ++ " Cr) disallowed - insufficient evidence and no separate coding.")

/-- Component 2 of `heuristic_EXC_01`: the government loss takeover is ALWAYS
excluded — its contribution to the allowable total is the constant 0. -/
def exc_allowable_govt_takeover : ℚ := 0

/-- The exclusion note appended when a nonzero government loss takeover is
claimed. -/
def exc_govt_note (claimed_govt_loss_takeover : ℚ) : String :=
  "Government loss takeover (₹" ++ fmt2 |claimed_govt_loss_takeover|
    ++ " Cr) EXCLUDED to avoid double counting. This amount was already considered while truing up accounts for the previous year per Order Para 6.105."

/-- `heuristic_EXC_01` (other_items_heuristics.py lines 169-326). -/
def heuristic_EXC_01 (claimed_calamity_rm claimed_govt_loss_takeover : ℚ)
    (separate_account_code calamity_supporting_docs : Bool)
    (staff_name : String) (staff_approved_amount : Option ℚ)
    (staff_justification : String) (w : World) : Record :=
  let ca := exc_calamity_assessment claimed_calamity_rm separate_account_code
    calamity_supporting_docs
  let allowable_calamity := ca.1
  let flag_calamity := ca.2.1
  let flag_govt : FlagColor := if claimed_govt_loss_takeover ≠ 0 then .RED else .GREEN
  let notes : List String :=
    [ca.2.2] ++ (if claimed_govt_loss_takeover ≠ 0 then
      [exc_govt_note claimed_govt_loss_takeover] else [])
  let total_allowable := allowable_calamity + exc_allowable_govt_takeover
  let total_claimed := claimed_calamity_rm + claimed_govt_loss_takeover
  let overall_flag : FlagColor :=
    if flag_calamity = .RED ∨ flag_govt = .RED then .RED
    else if flag_calamity = .YELLOW then .YELLOW
    else .GREEN
  let variance_absolute := total_claimed - total_allowable
  let variance_percentage :=
    if total_allowable ≠ 0 then variance_absolute / total_allowable * 100 else 0
  let recommendation_text :=
    if overall_flag = .GREEN then
      "Approve exceptional items of ₹" ++ fmt2 total_allowable ++ " Cr. "
        ++ join_with_space notes
    else
      "Approve ₹" ++ fmt2 total_allowable ++ " Cr (out of ₹" ++ fmt2 total_claimed
        ++ " Cr claimed). " ++ join_with_space notes
  let calculation_steps :=
    ["=== Component 1: Natural Calamity R&M ===",
     "Claimed: ₹" ++ fmt2 claimed_calamity_rm ++ " Cr",
     "Separate Account Code: " ++ (if separate_account_code then "YES" else "NO"),
     "Supporting Documents: " ++ (if calamity_supporting_docs then "YES" else "NO"),
     "Allowable: ₹" ++ fmt2 allowable_calamity ++ " Cr",
     "",
     "=== Component 2: Government Loss Takeover ===",
     "Claimed: ₹" ++ fmt2 claimed_govt_loss_takeover ++ " Cr",
     "Status: ALWAYS EXCLUDED (avoid double counting)",
     "Allowable: ₹" ++ fmt2 exc_allowable_govt_takeover ++ " Cr",
     "",
     "=== Total Exceptional Items ===",
     "Total Claimed: ₹" ++ fmt2 total_claimed ++ " Cr",
     "Total Allowable: ₹" ++ fmt2 total_allowable ++ " Cr",
     "Variance: ₹" ++ fmt2 variance_absolute ++ " Cr (" ++ fmt2signed variance_percentage
       ++ "%)",
     "",
     "=== Regulatory Note ===",
     "Natural calamity expenses are one-time operational costs",
     "Must be coded separately from routine O&M to prevent inflation of normative costs",
     "Government loss takeover excluded per Order Para 6.105 to prevent double counting across years"]
  let sr := other_items_staff_review staff_name staff_approved_amount total_allowable w
  let final_approved_amount := staff_approved_amount.getD total_allowable
  { heuristic_id := "EXC-01"
    heuristic_name := "Exceptional Items"
    line_item := "Exceptional Items"
    claimed_value := some total_claimed
    allowable_value := some total_allowable
    variance_absolute := some variance_absolute
    variance_percentage := some variance_percentage
    flag := overall_flag
    recommended_amount := some total_allowable
    recommendation_text := recommendation_text
    regulatory_basis := "Prudence assessment; One-time exceptional expenses; Order Para 6.101-6.106"
    calculation_steps := calculation_steps
    staff_override_flag := sr.1
    staff_approved_amount := some final_approved_amount
    staff_justification := staff_justification
    staff_review_status := sr.2.1
    reviewed_by := sr.2.2.1
    reviewed_at := sr.2.2.2
    depends_on := []
    is_primary := true
    output_type := "discretionary" }

/-- A record with its `reviewed_at` timestamp erased (for stating clock
independence of everything else). -/
def erase_reviewed_at (r : Record) : Record :=
  { r with reviewed_at := none }

/-- Spec-side definition (the claim's words, for comparison with the code):
the multi-pattern resolved amount is "the sum, over exactly those records with
`is_primary` true and `output_type` equal to `'approved_amount'`, of
`staff_approved_amount` when it is non-null else `recommended_amount`";
records outside that set contribute nothing. -/
def spec_multi_sum (rs : List Record) : ℚ :=
  ((rs.filter (fun r => r.is_primary && r.output_type == "approved_amount")).map
    (fun r =>
      match r.staff_approved_amount with
      | some v => v
      | none => r.recommended_amount.getD 0)).sum

/-- Spec-side definition (the claim's words): the net requirement is the
signed sum over all line items of their resolved amount — adding line items
configured with `is_expense` true (the default when the flag is absent),
subtracting those configured false, a line item with no resolved amount
contributing zero. -/
def spec_net_requirement (sbu : SBU) : ℚ :=
  (sbu.line_items.map (fun kli =>
    match kli.2.get_approved_amount with
    | none => 0
    | some a => if sbu.expense_lookup kli.1 then a else -a)).sum

/-- A record that makes the multi-pattern loop set `has_any`: a primary
`approved_amount` record carrying a non-null staff or recommended amount. -/
def contributes (r : Record) : Bool :=
  (r.is_primary && r.output_type == "approved_amount")
    && (r.staff_approved_amount.isSome || r.recommended_amount.isSome)

lemma multi_fold_fst (rs : List Record) (t : ℚ) (b : Bool) :
    (rs.foldl multi_amount_step (t, b)).1 = t + spec_multi_sum rs := by
  induction rs generalizing t b with
  | nil => simp [spec_multi_sum]
  | cons r rs ih =>
    by_cases hq : (r.is_primary && r.output_type == "approved_amount") = true
    · cases hs : r.staff_approved_amount with
      | some v =>
        simp only [List.foldl_cons, multi_amount_step, hq, if_pos, hs, ih,
          spec_multi_sum, List.filter_cons_of_pos, List.map_cons, List.sum_cons]
        ring
      | none =>
        cases hr : r.recommended_amount with
        | some v =>
          simp only [List.foldl_cons, multi_amount_step, hq, if_pos, hs, hr, ih,
            spec_multi_sum, List.filter_cons_of_pos, List.map_cons, List.sum_cons]
          simp [Option.getD]
          ring
        | none =>
          simp only [List.foldl_cons, multi_amount_step, hq, if_pos, hs, hr, ih,
            spec_multi_sum, List.filter_cons_of_pos, List.map_cons, List.sum_cons]
          simp [Option.getD]
    · simp only [List.foldl_cons, multi_amount_step, hq, if_neg, ih, spec_multi_sum,
        List.filter_cons_of_neg, Bool.not_eq_true]

lemma multi_fold_snd (rs : List Record) (t : ℚ) (b : Bool) :
    (rs.foldl multi_amount_step (t, b)).2 = (b || rs.any contributes) := by
  induction rs generalizing t b with
  | nil => simp
  | cons r rs ih =>
    by_cases hq : (r.is_primary && r.output_type == "approved_amount") = true
    · cases hs : r.staff_approved_amount with
      | some v =>
        simp [List.foldl_cons, multi_amount_step, hq, hs, ih, contributes]
      | none =>
        cases hr : r.recommended_amount with
        | some v =>
          simp [List.foldl_cons, multi_amount_step, hq, hs, hr, ih, contributes]
        | none =>
          simp [List.foldl_cons, multi_amount_step, hq, hs, hr, ih, contributes]
    · simp [List.foldl_cons, multi_amount_step, hq, ih, contributes]

/-- Replace the `recommended_amount` of a record that has been overridden by
amount (non-null `staff_approved_amount`) with an arbitrary value; a record
not overridden is untouched. -/
def mask_overridden_record (f : Record → Option ℚ) (r : Record) : Record :=
  if r.staff_approved_amount.isSome then { r with recommended_amount := f r } else r

/-- Apply `mask_overridden_record` to every stored record of a line item. -/
def LineItem.mask_overridden_recommended (li : LineItem) (f : Record → Option ℚ) :
    LineItem :=
  { li with
    heuristic_result := li.heuristic_result.map (mask_overridden_record f)
    heuristic_results := li.heuristic_results.map (mask_overridden_record f) }

lemma mask_is_primary (f : Record → Option ℚ) (r : Record) :
    (mask_overridden_record f r).is_primary = r.is_primary := by
  unfold mask_overridden_record
  split <;> rfl

lemma mask_resolve (f : Record → Option ℚ) (r : Record) :
    resolve_record_amount (mask_overridden_record f r) = resolve_record_amount r := by
  unfold mask_overridden_record resolve_record_amount
  cases hs : r.staff_approved_amount <;> simp [hs]

lemma mask_step (f : Record → Option ℚ) (acc : ℚ × Bool) (r : Record) :
    multi_amount_step acc (mask_overridden_record f r) = multi_amount_step acc r := by
  unfold mask_overridden_record multi_amount_step
  cases hs : r.staff_approved_amount <;> simp [hs]

lemma mask_get_all_results (li : LineItem) (f : Record → Option ℚ) :
    (li.mask_overridden_recommended f).get_all_results
      = li.get_all_results.map (mask_overridden_record f) := by
  unfold LineItem.mask_overridden_recommended LineItem.get_all_results
  by_cases hp : (li.pattern == "single") = true
  · simp only [hp, if_pos]
    cases li.heuristic_result <;> rfl
  · simp only [Bool.not_eq_true] at hp
    simp [hp]

lemma mask_get_primary (li : LineItem) (f : Record → Option ℚ) :
    (li.mask_overridden_recommended f).get_primary_heuristic
      = li.get_primary_heuristic.map (mask_overridden_record f) := by
  unfold LineItem.get_primary_heuristic
  rw [mask_get_all_results]
  rw [List.find?_map]
  have hp : (fun r => r.is_primary) ∘ mask_overridden_record f
      = fun r : Record => r.is_primary := by
    funext r
    exact mask_is_primary f r
  rw [hp]
  cases li.get_all_results.find? (fun r => r.is_primary) with
  | some r => rfl
  | none => simp [List.head?_map]

lemma mask_get_approved_amount (li : LineItem) (f : Record → Option ℚ) :
    (li.mask_overridden_recommended f).get_approved_amount = li.get_approved_amount := by
  have hfold : List.foldl multi_amount_step ((0 : ℚ), false)
      (List.map (mask_overridden_record f) li.get_all_results)
      = List.foldl multi_amount_step ((0 : ℚ), false) li.get_all_results := by
    rw [List.foldl_map]
    have h : (fun (acc : ℚ × Bool) r => multi_amount_step acc (mask_overridden_record f r))
        = multi_amount_step := by
      funext acc r
      exact mask_step f acc r
    rw [h]
  have hemp : (List.map (mask_overridden_record f) li.get_all_results).isEmpty
      = li.get_all_results.isEmpty := by
    cases li.get_all_results <;> rfl
  have hpat : (li.mask_overridden_recommended f).pattern = li.pattern := rfl
  simp only [LineItem.get_approved_amount, mask_get_all_results, mask_get_primary,
    hpat, hfold, hemp]
  cases hpr : li.get_primary_heuristic with
  | none => simp only [Option.map_none']
  | some r => simp only [Option.map_some', mask_resolve]

lemma foldl_add_eq_add_sum {α : Type} (l : List α) (g : α → ℚ) (t : ℚ) :
    l.foldl (fun acc x => acc + g x) t = t + (l.map g).sum := by
  induction l generalizing t with
  | nil => simp
  | cons x xs ih => simp [ih, add_assoc]

lemma foldl_and_eq_all {α : Type} (l : List α) (p : α → Bool) (b : Bool) :
    l.foldl (fun acc x => acc && p x) b = (b && l.all p) := by
  induction l generalizing b with
  | nil => simp
  | cons x xs ih => simp [ih, Bool.and_assoc]

lemma check_review_status_complete_iff (li : LineItem) :
    li.check_review_status.complete = true ↔
      li.get_all_results ≠ [] ∧
        ∀ r ∈ li.get_all_results, r.staff_review_status ≠ ReviewStatus.Pending := by
  unfold LineItem.check_review_status
  cases hres : li.get_all_results with
  | nil => simp
  | cons r rs =>
    simp only [List.isEmpty_cons, Bool.false_eq_true, if_false, ne_eq,
      reduceCtorEq, not_false_eq_true, true_and]
    rw [Bool.and_eq_true, beq_iff_eq, decide_eq_true_iff, List.countP_eq_zero]
    constructor
    · intro h x hx
      have := h.1 x hx
      simpa using this
    · intro h
      refine ⟨fun x hx => by simpa using h x hx, by simp⟩

/-- Severity order used by the worst-case flag aggregation:
RED over YELLOW over GREEN (the sentinel, never a system flag, is lowest). -/
def FlagColor.severity : FlagColor → ℕ
  | .GREEN => 0
  | .YELLOW => 1
  | .RED => 2
  | .STAFF_OVERRIDE => 0

/-- The string `get_overall_flag` returns for each flag value. -/
def flag_color_string : FlagColor → String
  | .GREEN => "GREEN"
  | .YELLOW => "YELLOW"
  | .RED => "RED"
  | .STAFF_OVERRIDE => "STAFF_OVERRIDE"

/-- A minimal concrete record fixture for counterexamples and witnesses. -/
def test_record (is_primary : Bool) (output_type : String)
    (recommended staff : Option ℚ) (flag : FlagColor)
    (override : Option FlagColor) (status : ReviewStatus) : Record :=
  { heuristic_id := "TEST-01"
    heuristic_name := "Test heuristic"
    line_item := "Test line item"
    claimed_value := none
    allowable_value := none
    variance_absolute := none
    variance_percentage := none
    flag := flag
    recommended_amount := recommended
    recommendation_text := ""
    regulatory_basis := ""
    calculation_steps := []
    staff_override_flag := override
    staff_approved_amount := staff
    staff_justification := ""
    staff_review_status := status
    reviewed_by := none
    reviewed_at := none
    depends_on := []
    is_primary := is_primary
    output_type := output_type }

/-- C1 (amended): for every `multi`-pattern line item in which at least one
stored record is primary with `output_type = 'approved_amount'` and carries a
non-null staff or recommended amount, `get_approved_amount()` equals the sum,
over exactly the primary `'approved_amount'` records, of
`staff_approved_amount` when non-null else `recommended_amount`; records with
`is_primary` false or a non-amount `output_type` contribute nothing.  (When no
record so qualifies the source instead falls back to the first primary — or
first — record's value, which the counterexample exhibits.) -/
theorem multi_pattern_amount_is_primary_sum (li : LineItem)
    (hpat : li.pattern = "multi")
    (hc : ∃ r ∈ li.get_all_results, contributes r = true) :
    li.get_approved_amount = some (spec_multi_sum li.get_all_results) := by
  have hany : li.get_all_results.any contributes = true := by
    rw [List.any_eq_true]
    simpa using hc
  have hne : li.get_all_results ≠ [] := by
    rcases hc with ⟨r, hr, _⟩
    exact List.ne_nil_of_mem hr
  have hemp : li.get_all_results.isEmpty = false := by
    cases hres : li.get_all_results with
    | nil => exact absurd hres hne
    | cons a l => rfl
  unfold LineItem.get_approved_amount
  simp only [hemp, Bool.false_eq_true, if_false, hpat]
  have hps : (("multi" : String) == "single") = false := by decide
  simp only [hps, Bool.false_eq_true, if_false]
  simp only [multi_fold_snd, multi_fold_fst, hany, Bool.false_or, if_true, zero_add]

/-- A `multi` line item holding a single non-primary `assessment` record with
a numeric recommended amount — the fallback path of the source. -/
def li_C1_cex : LineItem :=
  { line_item_name := "Master Trust Obligations"
    pattern := "multi"
    heuristic_result := none
    heuristic_results := [test_record false "assessment" (some 3) none .GREEN none .Pending] }

/-- C1 counterexample: a stored, non-primary `assessment` record carrying the
numeric recommended amount 3.0 DOES determine the result (the fallback
returns 3.0), whereas the claim's sum over primary `'approved_amount'`
records is 0 — so `get_approved_amount()` is not that sum. -/
theorem multi_pattern_amount_fallback_cex :
    li_C1_cex.get_approved_amount ≠ some (spec_multi_sum li_C1_cex.get_all_results) := by
  have hms : ¬(("multi" : String) = "single") := by decide
  norm_num [li_C1_cex, test_record, LineItem.get_approved_amount, LineItem.get_all_results,
    LineItem.get_primary_heuristic, multi_amount_step, resolve_record_amount, spec_multi_sum,
    List.find?, List.filter, hms]

/-- The claim's own scenario: primary `approved_amount` records of 10.0 and
5.0 plus a non-primary `assessment` record of 3.0. -/
def li_C1_witness_item : LineItem :=
  { line_item_name := "Interest & Finance Charges"
    pattern := "multi"
    heuristic_result := none
    heuristic_results :=
      [test_record true "approved_amount" (some 10) none .GREEN none .Pending,
       test_record true "approved_amount" (some 5) none .GREEN none .Pending,
       test_record false "assessment" (some 3) none .GREEN none .Pending] }

/-- C1 witness: on the claim's `[A: 10.0, B: 5.0, C: 3.0 assessment]`
scenario the resolved amount is 15.0, not 18.0. -/
theorem multi_pattern_amount_witness :
    li_C1_witness_item.get_approved_amount = some 15 := by
  have h := multi_pattern_amount_is_primary_sum li_C1_witness_item rfl
    ⟨test_record true "approved_amount" (some 10) none .GREEN none .Pending,
      by simp [li_C1_witness_item, LineItem.get_all_results],
      by simp [contributes, test_record]⟩
  rw [h]
  norm_num [li_C1_witness_item, test_record, LineItem.get_all_results, spec_multi_sum,
    List.filter]

/-- C2: an amount override always wins.  (i) For a single-pattern line item
whose stored record carries a non-null `staff_approved_amount` (the value 0.0
included), `get_approved_amount()` returns exactly that staff amount, whatever
`recommended_amount` says.  (ii) For every line item of either pattern, the
result of `get_approved_amount()` is invariant under arbitrary changes to the
`recommended_amount` of any record that has been overridden by amount — the
resolution never reads `recommended_amount` of an overridden record. -/
theorem amount_override_always_wins :
    (∀ (li : LineItem) (r : Record) (v : ℚ),
      li.pattern = "single" → li.heuristic_result = some r →
      r.staff_approved_amount = some v →
      li.get_approved_amount = some v)
    ∧ ∀ (li : LineItem) (f : Record → Option ℚ),
      (li.mask_overridden_recommended f).get_approved_amount = li.get_approved_amount := by
  constructor
  · intro li r v hpat hres hstaff
    unfold LineItem.get_approved_amount LineItem.get_primary_heuristic LineItem.get_all_results
    simp only [hpat, hres]
    cases hp : r.is_primary <;>
      simp [List.find?, hp, resolve_record_amount, hstaff]
  · intro li f
    exact mask_get_approved_amount li f

/-- A single-pattern line item whose record was overridden by amount to 0.0
against a nonzero recommended amount. -/
def li_C2_single : LineItem :=
  { line_item_name := "Return on Equity"
    pattern := "single"
    heuristic_result := some (test_record true "approved_amount" (some 7) (some 0) .GREEN none .Overridden)
    heuristic_results := [] }

/-- A multi-pattern line item with one overridden and one accepted primary
record. -/
def li_C2_multi : LineItem :=
  { line_item_name := "Interest & Finance Charges"
    pattern := "multi"
    heuristic_result := none
    heuristic_results :=
      [test_record true "approved_amount" (some 99) (some 10) .GREEN none .Overridden,
       test_record true "approved_amount" (some 5) none .GREEN none .Accepted] }

/-- C2 witness: the 0.0 override is returned as-is on a single-pattern item,
and rewriting the overridden record's recommended amount to 1234 leaves the
multi-pattern resolution unchanged. -/
theorem amount_override_always_wins_witness :
    li_C2_single.get_approved_amount = some 0
    ∧ (li_C2_multi.mask_overridden_recommended (fun _ => some 1234)).get_approved_amount
        = li_C2_multi.get_approved_amount :=
  ⟨amount_override_always_wins.1 li_C2_single
      (test_record true "approved_amount" (some 7) (some 0) .GREEN none .Overridden) 0
      rfl rfl rfl,
    amount_override_always_wins.2 li_C2_multi (fun _ => some 1234)⟩

lemma signed_foldl_eq_sum (sbu : SBU) (l : List (String × LineItem)) (t : ℚ) :
    l.foldl
      (fun total kli =>
        match kli.2.get_approved_amount with
        | none => total
        | some approved =>
          if sbu.expense_lookup kli.1 then total + approved else total - approved)
      t
    = t + (l.map (fun kli =>
        match kli.2.get_approved_amount with
        | none => 0
        | some a => if sbu.expense_lookup kli.1 then a else -a)).sum := by
  induction l generalizing t with
  | nil => simp
  | cons x xs ih =>
    rw [List.foldl_cons, List.map_cons, List.sum_cons]
    cases h : x.2.get_approved_amount with
    | none =>
      simp only [h]
      rw [ih, zero_add]
    | some a =>
      simp only [h]
      by_cases he : sbu.expense_lookup x.1 = true
      · simp only [he, if_true]
        rw [ih, add_assoc]
      · simp only [he, Bool.false_eq_true, if_false]
        rw [ih, sub_eq_add_neg, add_assoc]

/-- An additive line item resolved at 100.0 (the claim's scenario). -/
def li_C3_add : LineItem :=
  { line_item_name := "Return on Equity"
    pattern := "single"
    heuristic_result := some (test_record true "approved_amount" (some 100) none .GREEN none .Accepted)
    heuristic_results := [] }

/-- A subtractive (NTI) line item resolved at 20.0 (the claim's scenario). -/
def li_C3_nti : LineItem :=
  { line_item_name := "Non-Tariff Income"
    pattern := "single"
    heuristic_result := some (test_record true "approved_amount" (some 20) none .GREEN none .Accepted)
    heuristic_results := [] }

/-- The claim's example business unit: one additive item at 100.0 and one
subtractive item at 20.0 (`is_expense` absent for the first, so defaulted). -/
def sbu_C3_example : SBU :=
  { sbu_code := "G"
    sbu_name := "Generation (SBU-G)"
    config_line_items := [⟨"roe", none⟩, ⟨"nti", some false⟩]
    line_items := [("roe", li_C3_add), ("nti", li_C3_nti)] }

/-- C3 (amended): `calculate_total_arr()` equals the signed sum over all line
items of their resolved amount — adding items configured `is_expense` true
(the default when the flag is absent), subtracting items configured false,
null resolved amounts contributing zero — ROUNDED to two decimal places
(half-to-even, the source's `round(total, 2)`); and on the claim's scenario
(additive 100.0, subtractive 20.0) it reports 80.0. -/
theorem total_arr_is_rounded_signed_sum :
    (∀ sbu : SBU, sbu.calculate_total_arr = pyRound2 (spec_net_requirement sbu))
    ∧ sbu_C3_example.calculate_total_arr = 80 := by
  constructor
  · intro sbu
    unfold SBU.calculate_total_arr spec_net_requirement
    rw [signed_foldl_eq_sum sbu sbu.line_items 0, zero_add]
  · have h1 : (("nti" : String) == "roe") = false := by decide
    have h2 : (("roe" : String) == "roe") = true := by decide
    have h3 : (("nti" : String) == "nti") = true := by decide
    have h4 : (("roe" : String) == "nti") = false := by decide
    norm_num [SBU.calculate_total_arr, SBU.expense_lookup, sbu_C3_example, li_C3_add,
      li_C3_nti, test_record, LineItem.get_approved_amount, LineItem.get_all_results,
      LineItem.get_primary_heuristic, resolve_record_amount, List.find?, pyRound2,
      roundHalfEven, List.reverse_cons, List.reverse_nil, h1, h2, h3, h4]

/-- A business unit with a single additive line item resolved at 0.125. -/
def sbu_C3_cex : SBU :=
  { sbu_code := "G"
    sbu_name := "Generation (SBU-G)"
    config_line_items := []
    line_items :=
      [("pay_revision",
        { line_item_name := "Pay Revision Arrears"
          pattern := "single"
          heuristic_result := some (test_record true "approved_amount" (some 0.125) none .GREEN none .Accepted)
          heuristic_results := [] })] }

/-- C3 counterexample: with one additive line item resolved at 0.125 the
signed sum is 0.125 but `calculate_total_arr()` returns 0.12 — the source
rounds the total to two decimals, so it does not equal the signed sum. -/
theorem total_arr_rounding_cex :
    sbu_C3_cex.calculate_total_arr = 0.12
    ∧ spec_net_requirement sbu_C3_cex = 0.125
    ∧ sbu_C3_cex.calculate_total_arr ≠ spec_net_requirement sbu_C3_cex := by
  refine ⟨?_, ?_, ?_⟩ <;>
    norm_num [SBU.calculate_total_arr, SBU.expense_lookup, sbu_C3_cex, test_record,
      LineItem.get_approved_amount, LineItem.get_all_results, LineItem.get_primary_heuristic,
      resolve_record_amount, List.find?, pyRound2, roundHalfEven, spec_net_requirement]

/-- C4: `check_aggregation_ready()` reports `ready_for_aggregation` true iff
every line item's review status is complete — each holds at least one record
and none of its records is Pending.  So readiness is false whenever even one
record across all line items is Pending, and true only when zero Pending
records remain. -/
theorem aggregation_ready_iff_all_reviewed (sbu : SBU) :
    sbu.check_aggregation_ready.ready_for_aggregation = true ↔
      ∀ p ∈ sbu.line_items, p.2.get_all_results ≠ [] ∧
        ∀ r ∈ p.2.get_all_results, r.staff_review_status ≠ ReviewStatus.Pending := by
  unfold SBU.check_aggregation_ready
  rw [show (⟨sbu.line_items.foldl
        (fun acc kli => acc && kli.2.check_review_status.complete) true,
      sbu.line_items.map (fun kli => (kli.1, kli.2.check_review_status))⟩ :
        AggregationReadiness).ready_for_aggregation
      = sbu.line_items.foldl
        (fun acc kli => acc && kli.2.check_review_status.complete) true from rfl]
  rw [foldl_and_eq_all, Bool.true_and, List.all_eq_true]
  constructor
  · intro h p hp
    exact (check_review_status_complete_iff p.2).mp (h p hp)
  · intro h p hp
    exact (check_review_status_complete_iff p.2).mpr (h p hp)

/-- A business unit whose single line item holds one Accepted record. -/
def sbu_C4_w : SBU :=
  { sbu_code := "T"
    sbu_name := "Transmission (SBU-T)"
    config_line_items := [⟨"om_expenses", some true⟩]
    line_items :=
      [("om_expenses",
        { line_item_name := "O&M Expenses (Transmission)"
          pattern := "single"
          heuristic_result := some (test_record true "approved_amount" none none .GREEN none .Accepted)
          heuristic_results := [] })] }

/-- C4 witness: a unit whose only record is Accepted is ready. -/
theorem aggregation_ready_witness :
    sbu_C4_w.check_aggregation_ready.ready_for_aggregation = true :=
  (aggregation_ready_iff_all_reviewed sbu_C4_w).mpr (by
    intro p hp
    simp only [sbu_C4_w, List.mem_singleton] at hp
    subst hp
    refine ⟨by simp [LineItem.get_all_results, test_record], ?_⟩
    intro r hr
    have hss : (("single" : String) == "single") = true := by decide
    simp only [LineItem.get_all_results, test_record, hss, if_true,
      List.mem_singleton] at hr
    simp [hr])

lemma overall_flag_of_ne_nil (li : LineItem) (h : li.get_all_results ≠ []) :
    li.get_overall_flag =
      (if (li.get_all_results.map effective_flag).contains FlagColor.RED then "RED"
       else if (li.get_all_results.map effective_flag).contains FlagColor.YELLOW then "YELLOW"
       else "GREEN") := by
  simp only [LineItem.get_overall_flag]
  cases hres : li.get_all_results with
  | nil => exact absurd hres h
  | cons a l => simp

/-- C5: `get_overall_flag()` (i) returns `'PENDING'` exactly when no records
are stored; (ii) returns `'RED'` whenever some record's effective flag
(override when set, else system flag) is RED, regardless of record order; and
(iii) on a nonempty record list whose effective flags are genuine severities
(not the `STAFF_OVERRIDE` sentinel), it returns the flag of maximal severity
(RED over YELLOW over GREEN) attained by some record. -/
theorem overall_flag_is_worst_case (li : LineItem) :
    (li.get_overall_flag = "PENDING" ↔ li.get_all_results = [])
    ∧ ((∃ r ∈ li.get_all_results, effective_flag r = FlagColor.RED) →
        li.get_overall_flag = "RED")
    ∧ (li.get_all_results ≠ [] →
        (∀ r ∈ li.get_all_results, effective_flag r ≠ FlagColor.STAFF_OVERRIDE) →
        ∃ f : FlagColor, li.get_overall_flag = flag_color_string f ∧
          (∃ r ∈ li.get_all_results, effective_flag r = f) ∧
          ∀ r ∈ li.get_all_results, (effective_flag r).severity ≤ f.severity) := by
  refine ⟨⟨?_, ?_⟩, ?_, ?_⟩
  · intro h
    by_contra hne
    have h3 := overall_flag_of_ne_nil li hne
    rw [h] at h3
    split_ifs at h3 <;> exact absurd h3 (by decide)
  · intro h
    simp [LineItem.get_overall_flag, h]
  · rintro ⟨r, hr, heff⟩
    have hne : li.get_all_results ≠ [] := List.ne_nil_of_mem hr
    rw [overall_flag_of_ne_nil li hne]
    have hcont : (li.get_all_results.map effective_flag).contains FlagColor.RED = true :=
      List.elem_eq_true_of_mem (List.mem_map.mpr ⟨r, hr, heff⟩)
    split_ifs with h1 h2 <;> first | rfl | exact absurd hcont h1
  · intro hne hSO
    by_cases hR : (li.get_all_results.map effective_flag).contains FlagColor.RED = true
    · refine ⟨.RED, ?_, ?_, ?_⟩
      · rw [overall_flag_of_ne_nil li hne]
        show _ = "RED"
        split_ifs with h1 h2 <;> first | rfl | exact absurd hR h1
      · rcases List.mem_map.mp (List.mem_of_elem_eq_true hR) with ⟨r, hr, he⟩
        exact ⟨r, hr, he⟩
      · intro r hr
        cases heff : effective_flag r <;> simp [FlagColor.severity]
    · by_cases hY : (li.get_all_results.map effective_flag).contains FlagColor.YELLOW = true
      · refine ⟨.YELLOW, ?_, ?_, ?_⟩
        · rw [overall_flag_of_ne_nil li hne]
          show _ = "YELLOW"
          split_ifs with h1 h2 <;>
            first | rfl | exact absurd h1 hR | exact absurd hY h2
        · rcases List.mem_map.mp (List.mem_of_elem_eq_true hY) with ⟨r, hr, he⟩
          exact ⟨r, hr, he⟩
        · intro r hr
          have hnotred : effective_flag r ≠ FlagColor.RED := by
            intro he
            exact hR (List.elem_eq_true_of_mem (List.mem_map.mpr ⟨r, hr, he⟩))
          have hnotso := hSO r hr
          cases heff : effective_flag r <;> simp_all [FlagColor.severity]
      · refine ⟨.GREEN, ?_, ?_, ?_⟩
        · rw [overall_flag_of_ne_nil li hne]
          show _ = "GREEN"
          split_ifs with h1 h2 <;>
            first | rfl | exact absurd h1 hR | exact absurd h2 hY
        · obtain ⟨a, l, hres⟩ : ∃ a l, li.get_all_results = a :: l := by
            cases h : li.get_all_results with
            | nil => exact absurd h hne
            | cons a l => exact ⟨a, l, rfl⟩
          have ha : a ∈ li.get_all_results := by
            rw [hres]
            exact List.mem_cons_self a l
          have hag : effective_flag a = FlagColor.GREEN := by
            have h1 : effective_flag a ≠ FlagColor.RED := by
              intro he
              exact hR (List.elem_eq_true_of_mem (List.mem_map.mpr ⟨a, ha, he⟩))
            have h2 : effective_flag a ≠ FlagColor.YELLOW := by
              intro he
              exact hY (List.elem_eq_true_of_mem (List.mem_map.mpr ⟨a, ha, he⟩))
            have h3 := hSO a ha
            cases heff : effective_flag a <;> simp_all
          exact ⟨a, ha, hag⟩
        · intro r hr
          have h1 : effective_flag r ≠ FlagColor.RED := by
            intro he
            exact hR (List.elem_eq_true_of_mem (List.mem_map.mpr ⟨r, hr, he⟩))
          have h2 : effective_flag r ≠ FlagColor.YELLOW := by
            intro he
            exact hY (List.elem_eq_true_of_mem (List.mem_map.mpr ⟨r, hr, he⟩))
          have h3 := hSO r hr
          cases heff : effective_flag r <;> simp_all [FlagColor.severity]

/-- A line item whose first record is GREEN and whose second carries a RED
staff override over a GREEN system flag. -/
def li_C5_w : LineItem :=
  { line_item_name := "Fuel Costs"
    pattern := "multi"
    heuristic_result := none
    heuristic_results :=
      [test_record true "approved_amount" (some 1) none .GREEN none .Accepted,
       test_record false "assessment" none none .GREEN (some .RED) .Overridden] }

/-- C5 witness: the RED effective flag of the overridden second record makes
the overall flag RED. -/
theorem overall_flag_witness : li_C5_w.get_overall_flag = "RED" :=
  (overall_flag_is_worst_case li_C5_w).2.1
    ⟨test_record false "assessment" none none .GREEN (some .RED) .Overridden,
      by simp [li_C5_w, LineItem.get_all_results],
      by simp [effective_flag, test_record]⟩

/-- C6 (amended): heuristics that accept no staff-review parameters
(`heuristic_ROE_01`, `heuristic_DEP_GEN_01`) return records with every
staff-review field in the untouched initial state — status `Pending`, null
`staff_approved_amount`, null `staff_override_flag`, `reviewed_by` and
`reviewed_at` unset.  `heuristic_EXC_01` and `heuristic_OTHER_EXP_01`, when
invoked without their optional staff parameters, likewise leave the status
`Pending`, the override flag null and `reviewed_by`/`reviewed_at` unset, but
— contrary to the claim — they write `staff_approved_amount` themselves,
setting it to the computed allowable value (`final_approved_amount`). -/
theorem heuristic_staff_review_fields :
    (∀ ec rr cr ei ed,
      (heuristic_ROE_01 ec rr cr ei ed).staff_review_status = ReviewStatus.Pending
      ∧ (heuristic_ROE_01 ec rr cr ei ed).staff_approved_amount = none
      ∧ (heuristic_ROE_01 ec rr cr ei ed).staff_override_flag = none
      ∧ (heuristic_ROE_01 ec rr cr ei ed).reviewed_by = none
      ∧ (heuristic_ROE_01 ec rr cr ei ed).reviewed_at = none)
    ∧ (∀ a b c d e f g h i j,
      (heuristic_DEP_GEN_01 a b c d e f g h i j).staff_review_status = ReviewStatus.Pending
      ∧ (heuristic_DEP_GEN_01 a b c d e f g h i j).staff_approved_amount = none
      ∧ (heuristic_DEP_GEN_01 a b c d e f g h i j).staff_override_flag = none
      ∧ (heuristic_DEP_GEN_01 a b c d e f g h i j).reviewed_by = none
      ∧ (heuristic_DEP_GEN_01 a b c d e f g h i j).reviewed_at = none)
    ∧ (∀ c g s d sn sj w,
      (heuristic_EXC_01 c g s d sn none sj w).staff_review_status = ReviewStatus.Pending
      ∧ (heuristic_EXC_01 c g s d sn none sj w).staff_override_flag = none
      ∧ (heuristic_EXC_01 c g s d sn none sj w).reviewed_by = none
      ∧ (heuristic_EXC_01 c g s d sn none sj w).reviewed_at = none
      ∧ (heuristic_EXC_01 c g s d sn none sj w).staff_approved_amount
          = (heuristic_EXC_01 c g s d sn none sj w).allowable_value)
    ∧ ∀ a b c d e sn sj w,
      (heuristic_OTHER_EXP_01 a b c d e sn none sj w).staff_review_status = ReviewStatus.Pending
      ∧ (heuristic_OTHER_EXP_01 a b c d e sn none sj w).staff_override_flag = none
      ∧ (heuristic_OTHER_EXP_01 a b c d e sn none sj w).reviewed_by = none
      ∧ (heuristic_OTHER_EXP_01 a b c d e sn none sj w).reviewed_at = none
      ∧ (heuristic_OTHER_EXP_01 a b c d e sn none sj w).staff_approved_amount
          = (heuristic_OTHER_EXP_01 a b c d e sn none sj w).allowable_value := by
  refine ⟨?_, ?_, ?_, ?_⟩
  · intro ec rr cr ei ed
    exact ⟨rfl, rfl, rfl, rfl, rfl⟩
  · intro a b c d e f g h i j
    exact ⟨rfl, rfl, rfl, rfl, rfl⟩
  · intro c g s d sn sj w
    exact ⟨rfl, rfl, rfl, rfl, rfl⟩
  · intro a b c d e sn sj w
    exact ⟨rfl, rfl, rfl, rfl, rfl⟩

/-- C6 counterexample: invoked with its default (absent) staff parameters on
a fully documented ₹5 Cr calamity claim, `heuristic_EXC_01` returns a record
whose `staff_approved_amount` is already non-null (it equals the computed
allowable total), even though the record is still Pending — the heuristic
itself writes a staff-review field. -/
theorem heuristic_exc01_writes_staff_amount_cex :
    (heuristic_EXC_01 5 0 true true "" none "" ⟨"2024-01-01 00:00:00"⟩).staff_approved_amount
      ≠ none := by
  simp [heuristic_EXC_01]

lemma exc01_reviewed_at_of_staff (c g : ℚ) (s d : Bool) (sn : String) (v : ℚ)
    (sj : String) (w : World) :
    (heuristic_EXC_01 c g s d sn (some v) sj w).reviewed_at = some w.now := by
  show (other_items_staff_review sn (some v) _ w).2.2.2 = some w.now
  simp only [other_items_staff_review]
  split <;> rfl

/-- C7 counterexample: `heuristic_EXC_01`, given a staff-review amount in its
input, reads the wall clock — two invocations on the same input dictionary at
different times yield different records (their `reviewed_at` timestamps
differ), and the timestamp field is set by the heuristic itself, not absent
until a separate review action. -/
theorem heuristic_determinism_cex :
    heuristic_EXC_01 5 0 true true "Alice" (some 99) "justified" ⟨"2024-01-01 10:00:00"⟩
      ≠ heuristic_EXC_01 5 0 true true "Alice" (some 99) "justified" ⟨"2024-01-01 10:00:01"⟩
    ∧ (heuristic_EXC_01 5 0 true true "Alice" (some 99) "justified"
        ⟨"2024-01-01 10:00:00"⟩).reviewed_at ≠ none := by
  constructor
  · intro h
    have h2 := congrArg Record.reviewed_at h
    rw [exc01_reviewed_at_of_staff, exc01_reviewed_at_of_staff] at h2
    simp at h2
  · rw [exc01_reviewed_at_of_staff]
    simp

set_option maxHeartbeats 1600000 in
/-- C7 (amended): every embedded heuristic is a deterministic function of its
input dictionary alone, except that `heuristic_EXC_01` and
`heuristic_OTHER_EXP_01` stamp `reviewed_at` from the wall clock when (and
only when) a staff amount is supplied in the input: erasing `reviewed_at`,
their output is independent of the clock; with no staff amount supplied they
are fully clock-independent and leave `reviewed_at` unset, and
`heuristic_ROE_01`/`heuristic_DEP_GEN_01` (which never read the clock) always
leave `reviewed_at` unset. -/
theorem heuristics_deterministic_modulo_timestamp :
    (∀ c g s d sn sa sj w w',
      erase_reviewed_at (heuristic_EXC_01 c g s d sn sa sj w)
        = erase_reviewed_at (heuristic_EXC_01 c g s d sn sa sj w'))
    ∧ (∀ a b c d e sn sa sj w w',
      erase_reviewed_at (heuristic_OTHER_EXP_01 a b c d e sn sa sj w)
        = erase_reviewed_at (heuristic_OTHER_EXP_01 a b c d e sn sa sj w'))
    ∧ (∀ c g s d sn sj w w',
      heuristic_EXC_01 c g s d sn none sj w = heuristic_EXC_01 c g s d sn none sj w')
    ∧ (∀ a b c d e sn sj w w',
      heuristic_OTHER_EXP_01 a b c d e sn none sj w
        = heuristic_OTHER_EXP_01 a b c d e sn none sj w')
    ∧ (∀ ec rr cr ei ed, (heuristic_ROE_01 ec rr cr ei ed).reviewed_at = none)
    ∧ ∀ a b c d e f g h i j,
      (heuristic_DEP_GEN_01 a b c d e f g h i j).reviewed_at = none := by
  refine ⟨?_, ?_, ?_, ?_, ?_, ?_⟩
  · intro c g s d sn sa sj w w'
    cases sa with
    | none => rfl
    | some v =>
      simp only [heuristic_EXC_01, erase_reviewed_at, other_items_staff_review]
      split_ifs <;> rfl
  · intro a b c d e sn sa sj w w'
    cases sa with
    | none => rfl
    | some v =>
      simp only [heuristic_OTHER_EXP_01, erase_reviewed_at, other_items_staff_review]
      split_ifs <;> rfl
  · intro c g s d sn sj w w'
    rfl
  · intro a b c d e sn sj w w'
    rfl
  · intro ec rr cr ei ed
    rfl
  · intro a b c d e f g h i j
    rfl

lemma string_toList_append (s t : String) : (s ++ t).toList = s.toList ++ t.toList := by
  simp [String.toList]

lemma infix_toList_append_right (p : List Char) (s t : String) (h : p <:+: t.toList) :
    p <:+: (s ++ t).toList := by
  rcases h with ⟨u, v, huv⟩
  refine ⟨s.toList ++ u, v, ?_⟩
  rw [string_toList_append, ← huv]
  simp [List.append_assoc]

lemma infix_toList_append_left (p : List Char) (s t : String) (h : p <:+: s.toList) :
    p <:+: (s ++ t).toList := by
  rcases h with ⟨u, v, huv⟩
  refine ⟨u, v ++ t.toList, ?_⟩
  rw [string_toList_append, ← huv]
  simp [List.append_assoc]

/-- C8: for every input with a nonzero `claimed_govt_loss_takeover`,
`heuristic_EXC_01` returns a well-formed record in which the govt-loss
contribution to `allowable_value` is zero — the allowable total equals the
calamity component alone, whatever the claimed magnitude — the flag is RED,
and the recommendation text cites double-counting prevention. -/
theorem exc01_zeroes_govt_loss_takeover (c g : ℚ) (s d : Bool) (sn : String)
    (sa : Option ℚ) (sj : String) (w : World) (hg : g ≠ 0) :
    (heuristic_EXC_01 c g s d sn sa sj w).allowable_value
        = some (exc_calamity_assessment c s d).1
    ∧ (heuristic_EXC_01 c g s d sn sa sj w).flag = FlagColor.RED
    ∧ "double counting".toList <:+:
        (heuristic_EXC_01 c g s d sn sa sj w).recommendation_text.toList := by
  have hgovt : (if g ≠ 0 then FlagColor.RED else FlagColor.GREEN) = FlagColor.RED :=
    if_pos hg
  have hnotes : (if g ≠ 0 then [exc_govt_note g] else []) = [exc_govt_note g] :=
    if_pos hg
  have hflag : (heuristic_EXC_01 c g s d sn sa sj w).flag = FlagColor.RED := by
    show (if (exc_calamity_assessment c s d).2.1 = FlagColor.RED
          ∨ (if g ≠ 0 then FlagColor.RED else FlagColor.GREEN) = FlagColor.RED
        then FlagColor.RED
        else if (exc_calamity_assessment c s d).2.1 = FlagColor.YELLOW
          then FlagColor.YELLOW else FlagColor.GREEN) = FlagColor.RED
    rw [hgovt]
    exact if_pos (Or.inr rfl)
  refine ⟨?_, hflag, ?_⟩
  · show some ((exc_calamity_assessment c s d).1 + exc_allowable_govt_takeover)
        = some (exc_calamity_assessment c s d).1
    rw [show exc_allowable_govt_takeover = 0 from rfl, add_zero]
  · have hoverall : ¬((if (exc_calamity_assessment c s d).2.1 = FlagColor.RED
          ∨ (if g ≠ 0 then FlagColor.RED else FlagColor.GREEN) = FlagColor.RED
        then FlagColor.RED
        else if (exc_calamity_assessment c s d).2.1 = FlagColor.YELLOW
          then FlagColor.YELLOW else FlagColor.GREEN) = FlagColor.GREEN) := by
      rw [hgovt, if_pos (Or.inr rfl)]
      decide
    show "double counting".toList <:+:
      (if (if (exc_calamity_assessment c s d).2.1 = FlagColor.RED
            ∨ (if g ≠ 0 then FlagColor.RED else FlagColor.GREEN) = FlagColor.RED
          then FlagColor.RED
          else if (exc_calamity_assessment c s d).2.1 = FlagColor.YELLOW
            then FlagColor.YELLOW else FlagColor.GREEN) = FlagColor.GREEN
        then "Approve exceptional items of ₹"
            ++ fmt2 ((exc_calamity_assessment c s d).1 + exc_allowable_govt_takeover)
            ++ " Cr. "
            ++ join_with_space ([(exc_calamity_assessment c s d).2.2]
                ++ (if g ≠ 0 then [exc_govt_note g] else []))
        else "Approve ₹"
            ++ fmt2 ((exc_calamity_assessment c s d).1 + exc_allowable_govt_takeover)
            ++ " Cr (out of ₹" ++ fmt2 (c + g) ++ " Cr claimed). "
            ++ join_with_space ([(exc_calamity_assessment c s d).2.2]
                ++ (if g ≠ 0 then [exc_govt_note g] else []))).toList
    rw [if_neg hoverall, hnotes]
    have hjoin : join_with_space ([(exc_calamity_assessment c s d).2.2] ++ [exc_govt_note g])
        = (exc_calamity_assessment c s d).2.2 ++ " " ++ exc_govt_note g := by
      simp [join_with_space]
    rw [hjoin]
    have htail : "double counting".toList <:+:
        (" Cr) EXCLUDED to avoid double counting. This amount was already considered while truing up accounts for the previous year per Order Para 6.105.").toList := by
      refine ⟨(" Cr) EXCLUDED to avoid ").toList, (". This amount was already considered while truing up accounts for the previous year per Order Para 6.105.").toList, ?_⟩
      decide
    have hgn : "double counting".toList <:+: (exc_govt_note g).toList := by
      show "double counting".toList <:+:
        ("Government loss takeover (₹" ++ fmt2 |g|
          ++ " Cr) EXCLUDED to avoid double counting. This amount was already considered while truing up accounts for the previous year per Order Para 6.105.").toList
      exact infix_toList_append_right _ _ _ htail
    exact infix_toList_append_right _ _ _ (infix_toList_append_right _ _ _ hgn)

/-- C8 witness: the FY 2023-24 figure — a claimed govt loss takeover of
−767.72 Cr beside a documented ₹5 Cr calamity claim is hard-zeroed, flagged
RED, and the text cites double counting. -/
theorem exc01_zeroes_govt_loss_takeover_witness :
    (heuristic_EXC_01 5 (-767.72) true true "" none ""
        ⟨"2024-01-01 00:00:00"⟩).allowable_value
      = some (exc_calamity_assessment 5 true true).1
    ∧ (heuristic_EXC_01 5 (-767.72) true true "" none ""
        ⟨"2024-01-01 00:00:00"⟩).flag = FlagColor.RED
    ∧ "double counting".toList <:+:
        (heuristic_EXC_01 5 (-767.72) true true "" none ""
          ⟨"2024-01-01 00:00:00"⟩).recommendation_text.toList :=
  exc01_zeroes_govt_loss_takeover 5 (-767.72) true true "" none ""
    ⟨"2024-01-01 00:00:00"⟩ (by norm_num)

/-- C9 counterexample: on the claim's inputs the code's bucket-1 depreciation
is 2952.3 × 0.0142 = 41.92266 — not the claim's 41.9027 — and its bucket-2
depreciation is 2239.35 × 0.0514 = 115.10259 — not the claim's 115.1102. -/
theorem dep_two_bucket_example_cex :
    dep_depreciation_13_to_30 3033.9 81.6 0 ≠ 41.9027
    ∧ dep_depreciation_below_13 (dep_average_below_13 (dep_opening_below_13 2294.0 145.5 112.1)
        (dep_closing_below_13 (dep_opening_below_13 2294.0 145.5 112.1) 405.9 0)) ≠ 115.1102 := by
  constructor <;>
    norm_num [dep_depreciation_13_to_30, dep_depreciable_13_to_30, dep_depreciation_below_13,
      dep_average_below_13, dep_opening_below_13, dep_closing_below_13]

/-- C9 (amended): on the inputs gfa_13_to_30=3033.9, land=81.6, grants=0,
bucket-2 opening components 2294.0/145.5/112.1, additions 405.9, withdrawals
0, claimed 157.0, the code computes bucket-1 depreciable 2952.3 and
depreciation 41.92266, bucket-2 opening 2036.4, closing 2442.3, average
2239.35 and depreciation 115.10259, total allowable 157.02525, variance
−0.02525 (≈ −0.016%), and flag GREEN. -/
theorem dep_two_bucket_example :
    dep_depreciable_13_to_30 3033.9 81.6 0 = 2952.3
    ∧ dep_depreciation_13_to_30 3033.9 81.6 0 = 41.92266
    ∧ dep_opening_below_13 2294.0 145.5 112.1 = 2036.4
    ∧ dep_closing_below_13 2036.4 405.9 0 = 2442.3
    ∧ dep_average_below_13 2036.4 2442.3 = 2239.35
    ∧ dep_depreciation_below_13 2239.35 = 115.10259
    ∧ (heuristic_DEP_GEN_01 5327.9 3033.9 81.6 0 2294.0 145.5 112.1 405.9
        157.0 0).allowable_value = some 157.02525
    ∧ (heuristic_DEP_GEN_01 5327.9 3033.9 81.6 0 2294.0 145.5 112.1 405.9
        157.0 0).variance_absolute = some (-0.02525)
    ∧ (heuristic_DEP_GEN_01 5327.9 3033.9 81.6 0 2294.0 145.5 112.1 405.9
        157.0 0).variance_percentage = some (-10100 / 628101)
    ∧ (heuristic_DEP_GEN_01 5327.9 3033.9 81.6 0 2294.0 145.5 112.1 405.9
        157.0 0).flag = FlagColor.GREEN := by
  refine ⟨?_, ?_, ?_, ?_, ?_, ?_, ?_, ?_, ?_, ?_⟩ <;>
    norm_num [heuristic_DEP_GEN_01, dep_depreciation_13_to_30, dep_depreciable_13_to_30,
      dep_depreciation_below_13, dep_average_below_13, dep_opening_below_13,
      dep_closing_below_13]
  intro h
  have habs : |(10100 : ℚ) / 628101| = 10100 / 628101 := abs_of_nonneg (by norm_num)
  rw [habs] at h
  norm_num at h

/-- C10: for a line item whose sole record is primary with
`staff_approved_amount = 0.0` (an override to zero) and a nonzero
`recommended_amount`, `get_approved_amount()` resolves to 0.0, yet the
per-heuristic `approved_amount` in `get_drill_down_data()` shows the
recommended amount instead — the drill-down picks the amount with a
truthiness `or`, so the audit display disagrees with the aggregated value. -/
theorem drill_down_disagrees_with_resolution (li : LineItem) (r : Record) (v : ℚ)
    (hres : li.get_all_results = [r]) (hp : r.is_primary = true)
    (hstaff : r.staff_approved_amount = some 0)
    (hrec : r.recommended_amount = some v) (hv : v ≠ 0) :
    li.get_approved_amount = some 0
    ∧ (drill_down_heuristic_detail r).approved_amount = some v := by
  constructor
  · simp only [LineItem.get_approved_amount, LineItem.get_primary_heuristic, hres]
    by_cases hpat : (li.pattern == "single") = true
    · simp [hpat, List.find?, hp, resolve_record_amount, hstaff]
    · by_cases hout : (r.output_type == "approved_amount") = true
      · simp [hpat, multi_amount_step, hp, hout, hstaff]
      · simp [hpat, multi_amount_step, hp, hout, List.find?, resolve_record_amount, hstaff]
  · simp [drill_down_heuristic_detail, truthy_or_amount, hstaff, hrec]

/-- A single-pattern line item whose sole primary record was overridden by
amount to exactly 0.0 against a recommended 5.0. -/
def li_C10_w : LineItem :=
  { line_item_name := "Exceptional Items"
    pattern := "single"
    heuristic_result :=
      some (test_record true "approved_amount" (some 5) (some 0) .GREEN none .Overridden)
    heuristic_results := [] }

/-- C10 witness: aggregation resolves the item to 0.0 while the drill-down
entry for the same record reports 5.0. -/
theorem drill_down_disagrees_witness :
    li_C10_w.get_approved_amount = some 0
    ∧ (drill_down_heuristic_detail
        (test_record true "approved_amount" (some 5) (some 0) .GREEN none
          .Overridden)).approved_amount = some 5 :=
  drill_down_disagrees_with_resolution li_C10_w
    (test_record true "approved_amount" (some 5) (some 0) .GREEN none .Overridden) 5
    (by simp [li_C10_w, LineItem.get_all_results]) rfl rfl rfl (by norm_num)
